import Mathlib

/-!
Shallow embedding of the moodmatch-api recommendation endpoint
(`src/api/mood.js`) and proofs about its core algorithms: the hybrid
scorer (`cosineSimilarity`, `keywordOverlap`, `genreOverlap`,
`hybridScore`), the result finalizer (`shuffleArray`, `finalizeResults`),
the candidate-pool builder (`fetchOpenAIPool` with the trending fallback),
and the HTTP handler's control flow.

Modelling conventions:
* JS numbers are modelled as real numbers (`ℝ`) for embedding scores and
  as rationals (`ℚ`) for the overlap counts; a JS value that is `NaN`,
  `±Infinity` or `undefined` where a number is expected is modelled as
  `Option.none` (the code's `x || 0` maps all of these to `0`, which the
  model mirrors with `Option.getD 0`).
* JS strings are modelled as `String`; character-level processing
  (`toLowerCase`, `split(/[\s,]+/)`) works on the underlying `List Char`.
* A JS value that may be `undefined` is modelled as an `Option`.
* External providers (OpenAI, TMDB, Google Books, Spotify) are modelled
  as fields of an `Env` record holding their responses; `Math.random`
  driven shuffling is modelled by an arbitrary permutation-producing
  function.
-/

namespace MoodMatch

/-- JS `a || b` for an optional string `a`: `undefined` and the empty
string (both falsy) fall through to the default. -/
def jsOr (o : Option String) (d : String) : String :=
  match o with
  | none => d
  | some s => if s = "" then d else s

/-- JS truthiness of an optional string: present and non-empty. -/
def strTruthy (o : Option String) : Bool :=
  match o with
  | none => false
  | some s => s ≠ ""

/-- `String.toLowerCase` on the underlying characters (ASCII letters). -/
def lowChars (s : List Char) : List Char := s.map Char.toLower

/-- A separator character of the JS regex `[\s,]`: whitespace or comma
(ASCII whitespace suffices for the data flowing through the pipeline). -/
def isSepChar (c : Char) : Bool :=
  c = ' ' || c = '\t' || c = '\n' || c = '\r' || c = ','

/-- Split at every separator character, keeping empty segments between
adjacent separators (the analogue of splitting on `[\s,]`, not `[\s,]+`). -/
def splitEvery : List Char → List (List Char)
  | [] => [[]]
  | c :: cs =>
    if isSepChar c then [] :: splitEvery cs
    else
      match splitEvery cs with
      | [] => [[c]]
      | s :: rest => (c :: s) :: rest

/-- JS `s.split(/[\s,]+/)`: runs of separators collapse into one split
point; a leading (resp. trailing) separator contributes a leading
(resp. trailing) empty segment; the empty string yields `[""]`. -/
def jsSplitTokens : List Char → List (List Char)
  | [] => [[]]
  | c :: cs =>
    let parts := (splitEvery (c :: cs)).filter (fun t => ¬ t.isEmpty)
    let withLead := if isSepChar c then [] :: parts else parts
    if isSepChar ((c :: cs).reverse.headD c) then withLead ++ [[]] else withLead

/-- JS `Array.prototype.join(sep)` on the character level. -/
def joinSepData (sep : List Char) : List (List Char) → List Char
  | [] => []
  | [s] => s
  | s :: t :: ts => s ++ sep ++ joinSepData sep (t :: ts)

/-- The `tags` field of a candidate record as it occurs in the JS data:
either an array of strings or a plain string.  A missing (`undefined`)
tags field behaves exactly like the empty string after the code's
`item.tags || ""`, so it is subsumed by `str ""`. -/
inductive TagsVal where
  | arr (l : List String)
  | str (s : String)
deriving DecidableEq

/-- JS truthiness of a tags value: an array is always truthy (even when
empty); a string is truthy when non-empty. -/
def tagsTruthy : TagsVal → Bool
  | .arr _ => true
  | .str s => s ≠ ""

/-- `Array.isArray(tags) ? tags.join(" ") : tags`, on characters. -/
def tagStringData : TagsVal → List Char
  | .arr l => joinSepData [' '] (l.map String.data)
  | .str s => s.data

/-- `tagString.toLowerCase().split(/[\s,]+/)`: the lower-cased tokens a
reference term is matched against. -/
def tagTokens (tv : TagsVal) : List (List Char) :=
  jsSplitTokens (lowChars (tagStringData tv))

/-- `keywordOverlap(ref, tags)` from `src/api/mood.js` lines 159-164:
`0` if the reference list is empty or the tags value is falsy, otherwise
the number of reference terms whose lower-cased form occurs among the
lower-cased tag tokens, divided by the size of the reference list
(`ref.length || 1` — the `|| 1` branch is dead here since `ref` is
non-empty on this path). -/
def keywordOverlap (ref : List String) (tags : TagsVal) : ℚ :=
  if ref.length = 0 || ¬ tagsTruthy tags then 0
  else
    ((ref.filter (fun k => (tagTokens tags).contains (lowChars k.data))).length : ℚ)
      / (ref.length : ℚ)

/-- `genreOverlap(ref, tags)` from `src/api/mood.js` lines 166-171: the
source duplicates the body of `keywordOverlap` verbatim. -/
def genreOverlap (ref : List String) (tags : TagsVal) : ℚ :=
  if ref.length = 0 || ¬ tagsTruthy tags then 0
  else
    ((ref.filter (fun k => (tagTokens tags).contains (lowChars k.data))).length : ℚ)
      / (ref.length : ℚ)

/-- A candidate record as it flows through the pipeline: the fields the
code reads or spreads (`{...item}`).  Catalog ids are modelled as opaque
strings; fields the LLM pool omits are `none`. -/
structure CandidateItem where
  title : String
  ty : String
  desc : Option String
  tags : TagsVal
  id : Option String
  image : Option String
deriving DecidableEq

/-- A candidate after `hybridScore`: `{...item, score, reason}`.  The
score is `none` when the JS value would be `NaN` (or missing). -/
structure ScoredItem (α : Type) extends CandidateItem where
  score : Option α
  reason : String
deriving DecidableEq

/-- `a.reduce((sum, ai, i) => sum + ai * b[i], 0)` for `a` no longer
than `b` (the defined, non-`NaN` case). -/
def dotRaw (a b : List ℝ) : ℝ := (List.zipWith (fun x y => x * y) a b).sum

/-- `a.reduce((sum, ai) => sum + ai * ai, 0)`: the squared Euclidean
norm of a vector. -/
def sumSq (a : List ℝ) : ℝ := (a.map (fun x => x * x)).sum

/-- `cosineSimilarity(a, b)` from `src/api/mood.js` lines 118-123:
`dot / (normA * normB)` with no zero-norm guard.  `none` models the two
ways the JS expression fails to be a real number: reading `b[i]` past the
end of `b` makes the dot product `NaN`, and a zero denominator makes the
quotient `NaN` (`0/0`, since a zero norm forces a zero dot product) or
`±Infinity`. -/
noncomputable def cosineSimilarity (a b : List ℝ) : Option ℝ :=
  if b.length < a.length then none
  else if Real.sqrt (sumSq a) * Real.sqrt (sumSq b) = 0 then none
  else some (dotRaw a b / (Real.sqrt (sumSq a) * Real.sqrt (sumSq b)))

/-- The text embedded for one item:
`` `${i.title} ${i.desc || ""} ${(Array.isArray(i.tags) ? i.tags.join(" ") : i.tags) || ""}` ``. -/
def itemText (i : CandidateItem) : String :=
  i.title ++ " " ++ i.desc.getD "" ++ " " ++ String.mk (tagStringData i.tags)

/-- The fixed-weight combination at `src/api/mood.js` line 142. -/
noncomputable def scoreFormula (sim kw genre : ℝ) : ℝ :=
  0.5 * sim + 0.3 * kw + 0.2 * genre

/-- `` `Matched mood & ${refTitle || "context"}` ``. -/
def reasonText (refTitle : String) : String :=
  "Matched mood & " ++ (if refTitle = "" then "context" else refTitle)

/-- `hybridScore(items, moodEmbedding, refKeywords, refGenres, refTitle)`
from `src/api/mood.js` lines 131-147.  The embedding provider
(`embedTexts`) is passed in as the function `embedBatch` mapping the
batch of item texts to the provider's response.  A `none` items argument
models a missing (`undefined`/`null`) list; `!items || !items.length`
returns `[]`, as does a batch whose embedding count differs from the
item count. -/
noncomputable def hybridScore (embedBatch : List String → List (List ℝ))
    (itemsOpt : Option (List CandidateItem)) (moodEmbedding : List ℝ)
    (refKeywords refGenres : List String) (refTitle : String) :
    List (ScoredItem ℝ) :=
  let items := itemsOpt.getD []
  if items.length = 0 then []
  else
    let texts := items.map itemText
    let embeddings := embedBatch texts
    if embeddings.length ≠ items.length then []
    else
      items.mapIdx (fun idx item =>
        let sim := cosineSimilarity moodEmbedding (embeddings.getD idx [])
        let kw : ℚ := keywordOverlap refKeywords item.tags
        let genre : ℚ := genreOverlap refGenres item.tags
        { toCandidateItem := item
          score := sim.map (fun s => scoreFormula s (kw : ℝ) (genre : ℝ))
          reason := reasonText refTitle })

/-- `(b.score || 0)`: the sort key of `finalizeResults`, with a missing
(or `NaN`) score read as `0`. -/
def scoreD {α : Type} [Zero α] (i : ScoredItem α) : α := i.score.getD 0

/-- `items.sort((a, b) => (b.score || 0) - (a.score || 0))`: the ES2019
`Array.prototype.sort` is stable, and a stable sort with a total
transitive comparator is a unique function of its input, so it coincides
with the (stable) insertion sort under the relation "the earlier item's
key is at least the later item's". -/
def sortByScoreDesc {α : Type} [LinearOrder α] [Zero α]
    (items : List (ScoredItem α)) : List (ScoredItem α) :=
  List.insertionSort (fun a b => scoreD b ≤ scoreD a) items

/-- `finalizeResults(items)` from `src/api/mood.js` lines 151-155:
sort descending by `score || 0`, keep the first 12, shuffle that band
(`shuffleArray`, i.e. `arr.sort(() => Math.random() - 0.5)`, produces an
implementation-defined permutation of its argument, modelled by the
`shuffle` parameter), return the first 6.  Total by construction — the
model of "never throws". -/
def finalizeResults {α : Type} [LinearOrder α] [Zero α]
    (shuffle : List (ScoredItem α) → List (ScoredItem α))
    (items : List (ScoredItem α)) : List (ScoredItem α) :=
  (shuffle ((sortByScoreDesc items).take 12)).take 6

/-- The fence stripping in `fetchOpenAIPool`: after `trim`, when the
content starts with three backticks, remove a leading fence line
(with optional `json` tag) and a trailing fence, mirroring
`replace(/^` ``` `(?:json)?\n/, "")` and `replace(/\n` ``` `$/, "")`
(each `replace` is a no-op when its pattern does not match). -/
def stripFence (s : String) : String :=
  if s.startsWith "```" then
    let s1 :=
      if s.startsWith "```json\n" then s.drop 8
      else if s.startsWith "```\n" then s.drop 4
      else s
    if s1.endsWith "\n```" then s1.dropRight 4 else s1
  else s

/-- `fetchOpenAIPool(mood, criteria)` from `src/api/mood.js` lines
333-364, abstracted over the LLM response: `content` is
`resp.choices[0]?.message?.content` and `parse` models `JSON.parse`
specialised to arrays of candidate records (`none` = the parse throws;
a successful parse of a non-array behaves downstream exactly like an
empty pool, so it is folded into the parsed list).  The `catch` branch
returns `[]`. -/
def fetchOpenAIPool (parse : String → Option (List CandidateItem))
    (content : Option String) : List CandidateItem :=
  (parse (stripFence ((jsOr content "[]").trim))).getD []

/-- One entry of the TMDB trending feed, with the fields the fallback
branch reads. -/
structure TrendEntry where
  title : String
  overview : Option String
  tid : String
  poster : Option String
deriving DecidableEq

/-- The mapping applied to a trending entry at `src/api/mood.js` lines
234-241. -/
def trendingToItem (e : TrendEntry) : CandidateItem :=
  { title := e.title
    ty := "movie"
    tags := .arr []
    desc := some (jsOr e.overview "Trending movie")
    id := some e.tid
    image := some (if strTruthy e.poster
      then "https://image.tmdb.org/t/p/w500" ++ e.poster.getD ""
      else "") }

/-- `fetchReferenceData`'s resolved result (its internal `catch` already
degrades to a default, so the model only sees a total value). -/
structure RefMeta where
  title : String
  overview : String
  keywords : List String
  genres : List String
deriving DecidableEq

/-- One record of a catalog search response on the `query` path;
`label` stands for TMDB's `title`/`name` or the book volume title. -/
structure CatalogEntry where
  eid : String
  label : String
  poster : Option String
deriving DecidableEq

/-- One record of the `query`-path response payload. -/
structure SearchRecord where
  rid : String
  title : String
  ty : String
  image : String
deriving DecidableEq

/-- The responses of every external collaborator, plus the random
shuffles, fixed for one request: the handler is a pure function of the
request and this environment. -/
structure Env where
  refData : String → String → RefMeta
  openAIContent : Option String
  parse : String → Option (List CandidateItem)
  trendingResults : Option (List TrendEntry)
  enrich : CandidateItem → CandidateItem
  embedText : String → List ℝ
  embedBatch : List String → List (List ℝ)
  spotify : String → Option String
  shuffleMovies : List (ScoredItem ℝ) → List (ScoredItem ℝ)
  shuffleTv : List (ScoredItem ℝ) → List (ScoredItem ℝ)
  shuffleBooks : List (ScoredItem ℝ) → List (ScoredItem ℝ)
  movieSearch : Option (List CatalogEntry)
  tvSearch : Option (List CatalogEntry)
  bookSearch : Option (List CatalogEntry)

/-- The incoming request: method plus the query parameters the handler
destructures. -/
structure Req where
  method : String
  queryParam : Option String
  mood : Option String
  criteria : Option String
  refId : Option String
  refType : Option String

/-- The JSON body of a response. -/
inductive RespBody where
  | noBody
  | err (msg : String)
  | search (items : List SearchRecord)
  | recs (movies tv books : List (ScoredItem ℝ)) (spotify : Option String)

/-- An HTTP response: status code and body. -/
structure Response where
  status : Nat
  body : RespBody

/-- The pool built from the trending feed when the LLM pool is empty:
`(trendingResp.results || []).slice(0, 15).map(...)`. -/
def trendingPool (env : Env) : List CandidateItem :=
  ((env.trendingResults.getD []).take 15).map trendingToItem

/-- `Array.prototype.join` on strings. -/
def joinSep (sep : String) : List String → String
  | [] => ""
  | [s] => s
  | s :: t :: ts => s ++ sep ++ joinSep sep (t :: ts)

/-- The text embedded for the mood context at lines 253-255. -/
def moodPrompt (mood : String) (refMeta : RefMeta) : String :=
  "Mood: " ++ mood ++ "\nReference: " ++ refMeta.title ++ "\nOverview: "
    ++ refMeta.overview ++ "\nGenres: " ++ joinSep ", " refMeta.genres

/-- The `query`-path payload: up to 5 movies, 5 TV shows and 5 books
mapped from the three catalog search responses (lines 188-219). -/
def searchBody (env : Env) : List SearchRecord :=
  ((env.movieSearch.getD []).map (fun e =>
      { rid := e.eid, title := e.label, ty := "movie"
        image := if strTruthy e.poster
          then "https://image.tmdb.org/t/p/w200" ++ e.poster.getD "" else "" })).take 5
  ++ ((env.tvSearch.getD []).map (fun e =>
      { rid := e.eid, title := e.label, ty := "tv"
        image := if strTruthy e.poster
          then "https://image.tmdb.org/t/p/w200" ++ e.poster.getD "" else "" })).take 5
  ++ ((env.bookSearch.getD []).map (fun e =>
      { rid := e.eid, title := e.label, ty := "book"
        image := e.poster.getD "" })).take 5

/-- The tail of the mood path once the pool is fixed (lines 243-296):
enrich each item, embed the mood context, score the three categories,
fetch the playlist, finalize each category, and answer 200.  The second
component is the trace of external calls made, in program order. -/
noncomputable def moodPath (env : Env) (mood criteria : String)
    (refMeta : RefMeta) (pool : List CandidateItem) :
    Response × List String :=
  let enriched := pool.map env.enrich
  let moodEmbedding := env.embedText (moodPrompt mood refMeta)
  let movies := hybridScore env.embedBatch
    (some (enriched.filter (fun i => i.ty == "movie"))) moodEmbedding
    refMeta.keywords refMeta.genres refMeta.title
  let tv := hybridScore env.embedBatch
    (some (enriched.filter (fun i => i.ty == "tv"))) moodEmbedding
    refMeta.keywords refMeta.genres refMeta.title
  let books := hybridScore env.embedBatch
    (some (enriched.filter (fun i => i.ty == "book"))) moodEmbedding
    refMeta.keywords refMeta.genres refMeta.title
  let spotify := env.spotify (criteria ++ " " ++ mood)
  (⟨200, .recs (finalizeResults env.shuffleMovies movies)
      (finalizeResults env.shuffleTv tv)
      (finalizeResults env.shuffleBooks books) spotify⟩,
   ["enrichPoolWithMetadata", "embedText", "embedTexts-movie",
    "embedTexts-tv", "embedTexts-book", "fetchSpotifyPlaylist"])

/-- The reference metadata used by the mood path: `fetchReferenceData`
is consulted only when both `refId` and `refType` are truthy. -/
def refMetaOf (env : Env) (req : Req) : RefMeta :=
  if strTruthy req.refId && strTruthy req.refType
  then env.refData (req.refId.getD "") (req.refType.getD "")
  else ⟨"", "", [], []⟩

/-- The external calls made while resolving the reference metadata. -/
def refCallsOf (req : Req) : List String :=
  if strTruthy req.refId && strTruthy req.refType
  then ["fetchReferenceData"] else []

/-- `handler(req, res)` from `src/api/mood.js` lines 173-301 as a pure
function of the request and the providers' responses, paired with the
trace of external calls in program order.  The `try/catch` wrapping the
pipeline never fires in the model because every provider response is a
total value; CORS headers are transport glue and are not modelled. -/
noncomputable def handler (env : Env) (req : Req) : Response × List String :=
  if req.method = "OPTIONS" then (⟨200, .noBody⟩, [])
  else if strTruthy req.queryParam then
    (⟨200, .search (searchBody env)⟩,
     ["tmdb-search-movie", "tmdb-search-tv", "books-search"])
  else if ¬ strTruthy req.mood then (⟨400, .err "Missing mood input"⟩, [])
  else
    let mood := req.mood.getD ""
    let criteria := match req.criteria with | none => "popular" | some c => c
    let pool0 := fetchOpenAIPool env.parse env.openAIContent
    let pool := if pool0.length = 0 then trendingPool env else pool0
    let fallbackCalls := if pool0.length = 0 then ["tmdb-trending"] else []
    let tail := moodPath env mood criteria (refMetaOf env req) pool
    (tail.1, refCallsOf req ++ ["fetchOpenAIPool"] ++ fallbackCalls ++ tail.2)

/-! ## Theorems -/

/-- Helper: on a non-empty reference list and an array-valued tags field,
both overlap functions take the counting branch. -/
theorem keywordOverlap_arr (ref : List String) (l : List String)
    (h : ref ≠ []) :
    keywordOverlap ref (.arr l)
      = ((ref.filter (fun k =>
            (tagTokens (.arr l)).contains (lowChars k.data))).length : ℚ)
        / (ref.length : ℚ) := by
  have hlen : ref.length ≠ 0 := by simpa using h
  simp [keywordOverlap, tagsTruthy, hlen]

/-- C5. For every reference set and tag collection: the overlap score is
`0` on an empty reference set regardless of tags; on an array of tags it
equals the number of reference terms whose lower-cased form occurs among
the lower-cased, whitespace-and-comma-tokenized tags, divided by
`max 1 |ref|`; it is `1` when every reference term occurs among the tag
tokens (and the reference set is non-empty, as its first clause already
stipulates); and matching is case-insensitive — both in the formula
(both sides are lower-cased before comparison) and on the spec's own
example, where tag `"Drama"` matches reference term `"drama"`.
`genreOverlap` is a verbatim copy of `keywordOverlap` and satisfies the
same equations. -/
theorem c5_overlap_spec :
    (∀ tags, keywordOverlap [] tags = 0 ∧ genreOverlap [] tags = 0)
    ∧ (∀ (ref l : List String),
        keywordOverlap ref (.arr l)
          = ((ref.filter (fun k =>
                (tagTokens (.arr l)).contains (lowChars k.data))).length : ℚ)
            / ((max 1 ref.length : ℕ) : ℚ)
        ∧ genreOverlap ref (.arr l) = keywordOverlap ref (.arr l))
    ∧ (∀ (ref l : List String), ref ≠ [] →
        (∀ k ∈ ref, (tagTokens (.arr l)).contains (lowChars k.data)) →
        keywordOverlap ref (.arr l) = 1)
    ∧ keywordOverlap ["drama"] (.arr ["Drama"]) = 1
    ∧ genreOverlap ["DRAMA"] (.arr ["drama, comedy"]) = 1 := by
  have hcopy : ∀ ref tags, genreOverlap ref tags = keywordOverlap ref tags := by
    intro ref tags
    simp [genreOverlap, keywordOverlap]
  have hone : ∀ (ref l : List String), ref ≠ [] →
      (∀ k ∈ ref, (tagTokens (.arr l)).contains (lowChars k.data)) →
      keywordOverlap ref (.arr l) = 1 := by
    intro ref l h hall
    rw [keywordOverlap_arr ref l h]
    rw [List.filter_eq_self.mpr (by simpa using hall)]
    have hlen : (ref.length : ℚ) ≠ 0 := by
      simpa [Nat.cast_eq_zero] using h
    exact div_self hlen
  refine ⟨?_, ?_, hone, ?_, ?_⟩
  · intro tags
    constructor <;> simp [keywordOverlap, genreOverlap]
  · intro ref l
    refine ⟨?_, hcopy ref (.arr l)⟩
    rcases eq_or_ne ref [] with rfl | h
    · simp [keywordOverlap]
    · rw [keywordOverlap_arr ref l h]
      have h1 : 1 ≤ ref.length := by
        have := List.length_pos.mpr h
        omega
      rw [Nat.max_eq_right h1]
  · have h : (List.filter (fun k =>
        (tagTokens (TagsVal.arr ["Drama"])).contains (lowChars k.data))
        ["drama"]).length = 1 := by decide
    simp only [keywordOverlap, tagsTruthy, h]
    norm_num
  · rw [hcopy]
    have h : (List.filter (fun k =>
        (tagTokens (TagsVal.arr ["drama, comedy"])).contains (lowChars k.data))
        ["DRAMA"]).length = 1 := by decide
    simp only [keywordOverlap, tagsTruthy, h]
    norm_num

/-- Witness for C5: the all-terms-match clause applied at a concrete
reference list and tag array (case-insensitively, across a comma). -/
theorem c5_overlap_witness :
    (["happy", "Upbeat"] : List String) ≠ []
    ∧ keywordOverlap ["happy", "Upbeat"] (.arr ["Happy, uplifting", "upbeat"]) = 1 :=
  ⟨by decide,
   c5_overlap_spec.2.2.1 ["happy", "Upbeat"] ["Happy, uplifting", "upbeat"]
     (by decide) (by decide)⟩

theorem sumSq_nonneg (a : List ℝ) : 0 ≤ sumSq a := by
  induction a with
  | nil => simp [sumSq]
  | cons x xs ih =>
    have hx : 0 ≤ x * x := mul_self_nonneg x
    simp only [sumSq, List.map_cons, List.sum_cons] at *
    linarith

theorem dotRaw_self (a : List ℝ) : dotRaw a a = sumSq a := by
  induction a with
  | nil => simp [dotRaw, sumSq]
  | cons x xs ih => simp [dotRaw, sumSq] at *

theorem dotRaw_comm (a b : List ℝ) : dotRaw a b = dotRaw b a := by
  unfold dotRaw
  rw [List.zipWith_comm_of_comm _ mul_comm]

/-- Cauchy–Schwarz for the list dot product, by induction on the pair. -/
theorem dotRaw_sq_le (a b : List ℝ) : dotRaw a b ^ 2 ≤ sumSq a * sumSq b := by
  induction a generalizing b with
  | nil => simp [dotRaw, sumSq]
  | cons x xs ih =>
    cases b with
    | nil => simp [dotRaw, sumSq]
    | cons y ys =>
      have h := ih ys
      have hp := sumSq_nonneg xs
      have hq := sumSq_nonneg ys
      have e1 : dotRaw (x :: xs) (y :: ys) = x * y + dotRaw xs ys := by
        simp [dotRaw]
      have e2 : sumSq (x :: xs) = x * x + sumSq xs := by simp [sumSq]
      have e3 : sumSq (y :: ys) = y * y + sumSq ys := by simp [sumSq]
      rw [e1, e2, e3]
      rcases hp.eq_or_lt with hp0 | hp0
      · have hd : dotRaw xs ys = 0 := by nlinarith [sq_nonneg (dotRaw xs ys)]
        rw [hd, ← hp0]
        nlinarith [mul_nonneg (mul_self_nonneg x) hq]
      · nlinarith [h, hq, sq_nonneg (x * dotRaw xs ys - y * sumSq xs),
          mul_nonneg (sq_nonneg x) (sub_nonneg.mpr h),
          mul_nonneg hp0.le (sub_nonneg.mpr h)]

/-- Helper: the defined branch of `cosineSimilarity`. -/
theorem cosineSimilarity_eq (a b : List ℝ) (hlen : a.length ≤ b.length)
    (ha : sumSq a ≠ 0) (hb : sumSq b ≠ 0) :
    cosineSimilarity a b
      = some (dotRaw a b / (Real.sqrt (sumSq a) * Real.sqrt (sumSq b))) := by
  unfold cosineSimilarity
  rw [if_neg (by omega), if_neg]
  intro h
  rcases mul_eq_zero.mp h with h0 | h0
  · exact ha (le_antisymm (Real.sqrt_eq_zero'.mp h0) (sumSq_nonneg a))
  · exact hb (le_antisymm (Real.sqrt_eq_zero'.mp h0) (sumSq_nonneg b))

/-- Helper: a zero-norm argument makes `cosineSimilarity` `NaN` (`none`),
whatever the other argument is. -/
theorem cosineSimilarity_zero (a b : List ℝ)
    (h : sumSq a = 0 ∨ sumSq b = 0) : cosineSimilarity a b = none := by
  unfold cosineSimilarity
  rcases lt_or_le b.length a.length with hl | hl
  · rw [if_pos hl]
  · rw [if_neg (by omega), if_pos]
    rcases h with h0 | h0 <;> rw [h0, Real.sqrt_zero] <;> ring

/-- C4, amended. `cosineSimilarity(a, b)` is `dot(a,b) / (‖a‖·‖b‖)`
whenever both norms are non-zero (and `b` is long enough for every read
`b[i]` to be defined); but when either vector has zero norm the code has
no guard: the JS expression divides a zero dot product by a zero
denominator and yields `NaN` (modelled `none`), not `0`. -/
theorem c4_cosine_formula :
    (∀ a b : List ℝ, a.length ≤ b.length → sumSq a ≠ 0 → sumSq b ≠ 0 →
      cosineSimilarity a b
        = some (dotRaw a b / (Real.sqrt (sumSq a) * Real.sqrt (sumSq b))))
    ∧ (∀ a b : List ℝ, sumSq a = 0 ∨ sumSq b = 0 →
        cosineSimilarity a b = none) :=
  ⟨cosineSimilarity_eq, cosineSimilarity_zero⟩

/-- Helper: the concrete zero-norm pair used by the counterexamples. -/
theorem cosineSimilarity_zero_one :
    cosineSimilarity [(0 : ℝ)] [(1 : ℝ)] = none := by
  apply cosineSimilarity_zero
  left
  norm_num [sumSq]

/-- Counterexample to C4 as stated: on the zero vector `[0]` against
`[1]` the claim demands the similarity be `0`, but the code returns
`NaN` (`none`), because `cosineSimilarity` has no zero-norm guard. -/
theorem c4_counterexample : cosineSimilarity [(0 : ℝ)] [(1 : ℝ)] ≠ some 0 := by
  rw [cosineSimilarity_zero_one]
  simp

/-- Witness for C4 (amended): both clauses applied at concrete vectors. -/
theorem c4_witness :
    cosineSimilarity [(1 : ℝ)] [(1 : ℝ)]
      = some (dotRaw [(1 : ℝ)] [(1 : ℝ)]
          / (Real.sqrt (sumSq [(1 : ℝ)]) * Real.sqrt (sumSq [(1 : ℝ)])))
    ∧ cosineSimilarity [(0 : ℝ)] [(2 : ℝ)] = none :=
  ⟨c4_cosine_formula.1 [1] [1] (by norm_num) (by norm_num [sumSq])
      (by norm_num [sumSq]),
   c4_cosine_formula.2 [0] [2] (Or.inl (by norm_num [sumSq]))⟩

/-- C9, amended. For vectors of equal length, `cosineSimilarity` is
symmetric; it lies in `[-1, 1]` provided both vectors have non-zero
norm (a zero-norm vector yields `NaN` instead — see the counterexample);
and `cosineSimilarity(a, a) = 1` for every `a` of non-zero norm. -/
theorem c9_cosine_props :
    (∀ a b : List ℝ, a.length = b.length →
      cosineSimilarity a b = cosineSimilarity b a)
    ∧ (∀ a b : List ℝ, a.length = b.length → sumSq a ≠ 0 → sumSq b ≠ 0 →
        ∃ x, cosineSimilarity a b = some x ∧ -1 ≤ x ∧ x ≤ 1)
    ∧ (∀ a : List ℝ, sumSq a ≠ 0 → cosineSimilarity a a = some 1) := by
  refine ⟨?_, ?_, ?_⟩
  · intro a b h
    unfold cosineSimilarity
    simp only [h, lt_self_iff_false, if_false]
    rw [dotRaw_comm a b, mul_comm (Real.sqrt (sumSq a)) (Real.sqrt (sumSq b))]
  · intro a b h ha hb
    have hp : 0 < sumSq a := (sumSq_nonneg a).lt_of_ne (Ne.symm ha)
    have hq : 0 < sumSq b := (sumSq_nonneg b).lt_of_ne (Ne.symm hb)
    have hdenom : 0 < Real.sqrt (sumSq a) * Real.sqrt (sumSq b) :=
      mul_pos (Real.sqrt_pos.mpr hp) (Real.sqrt_pos.mpr hq)
    refine ⟨_, cosineSimilarity_eq a b (le_of_eq h) ha hb, ?_⟩
    have habs : |dotRaw a b| ≤ Real.sqrt (sumSq a) * Real.sqrt (sumSq b) := by
      rw [← Real.sqrt_sq_eq_abs, ← Real.sqrt_mul (sumSq_nonneg a)]
      exact Real.sqrt_le_sqrt (dotRaw_sq_le a b)
    have hq1 : |dotRaw a b / (Real.sqrt (sumSq a) * Real.sqrt (sumSq b))| ≤ 1 := by
      rw [abs_div, abs_of_pos hdenom]
      exact (div_le_one hdenom).mpr habs
    exact abs_le.mp hq1
  · intro a ha
    have hp : 0 ≤ sumSq a := sumSq_nonneg a
    unfold cosineSimilarity
    rw [if_neg (lt_irrefl _), if_neg (by rw [Real.mul_self_sqrt hp]; exact ha),
      dotRaw_self, Real.mul_self_sqrt hp, div_self ha]

/-- Counterexample to C9 as stated: `[0]` and `[1]` have equal non-zero
length, yet the similarity is `NaN` (`none`) — no real value in
`[-1, 1]` is returned. -/
theorem c9_counterexample :
    ¬ ∃ x : ℝ, cosineSimilarity [(0 : ℝ)] [(1 : ℝ)] = some x
      ∧ -1 ≤ x ∧ x ≤ 1 := by
  rw [cosineSimilarity_zero_one]
  rintro ⟨x, hx, -⟩
  exact Option.noConfusion hx

/-- Witness for C9 (amended): the three clauses applied at concrete
vectors. -/
theorem c9_witness :
    cosineSimilarity [(1 : ℝ), 2] [(3 : ℝ), 4]
      = cosineSimilarity [(3 : ℝ), 4] [(1 : ℝ), 2]
    ∧ (∃ x, cosineSimilarity [(1 : ℝ)] [(1 : ℝ)] = some x ∧ -1 ≤ x ∧ x ≤ 1)
    ∧ cosineSimilarity [(2 : ℝ)] [(2 : ℝ)] = some 1 :=
  ⟨c9_cosine_props.1 _ _ (by norm_num),
   c9_cosine_props.2.1 [1] [1] (by norm_num) (by norm_num [sumSq])
     (by norm_num [sumSq]),
   c9_cosine_props.2.2 [2] (by norm_num [sumSq])⟩

/-- Helper: a concrete candidate used by witnesses. -/
def sampleItem : CandidateItem :=
  { title := "Inception", ty := "movie", desc := some "A dream heist"
    tags := .arr ["sci-fi"], id := none, image := none }

/-- Helper: the element-wise description of `hybridScore` when the
embedding count matches the item count. -/
theorem hybridScore_getElem (eb : List String → List (List ℝ))
    (items : List CandidateItem) (mood : List ℝ) (rk rg : List String)
    (rt : String) (h : (eb (items.map itemText)).length = items.length)
    (i : ℕ) :
    (hybridScore eb (some items) mood rk rg rt)[i]?
      = (items[i]?).map (fun item =>
          { toCandidateItem := item
            score := (cosineSimilarity mood
                ((eb (items.map itemText)).getD i [])).map
              (fun s => scoreFormula s ((keywordOverlap rk item.tags : ℚ) : ℝ)
                ((genreOverlap rg item.tags : ℚ) : ℝ))
            reason := reasonText rt }) := by
  cases items with
  | nil => simp [hybridScore]
  | cons a as =>
    simp only [hybridScore, Option.getD_some]
    rw [if_neg (by simp)]
    simp only [h, ne_eq, not_true_eq_false, if_false]
    rw [List.getElem?_mapIdx]

/-- C6. A batch whose embedding count differs from the item count makes
`hybridScore` return `[]` for that category instead of misaligning items
to embeddings; an empty or missing (`undefined`) item list also yields
`[]`, with no error. -/
theorem c6_hybrid_guard :
    (∀ (eb : List String → List (List ℝ)) (items : List CandidateItem)
        (mood : List ℝ) (rk rg : List String) (rt : String), items ≠ [] →
      (eb (items.map itemText)).length ≠ items.length →
      hybridScore eb (some items) mood rk rg rt = [])
    ∧ (∀ (eb : List String → List (List ℝ)) (mood : List ℝ)
        (rk rg : List String) (rt : String),
        hybridScore eb (some []) mood rk rg rt = []
        ∧ hybridScore eb none mood rk rg rt = []) := by
  constructor
  · intro eb items mood rk rg rt hne hmis
    cases items with
    | nil => simp [hybridScore]
    | cons a as =>
      simp only [hybridScore, Option.getD_some]
      rw [if_neg (by simp), if_pos hmis]
  · intro eb mood rk rg rt
    constructor <;> simp [hybridScore]

/-- Witness for C6: a one-item batch answered with zero embeddings is
dropped to `[]`. -/
theorem c6_hybrid_witness :
    ([sampleItem] ≠ [])
    ∧ hybridScore (fun _ => []) (some [sampleItem]) [1] ["k"] ["g"] "" = [] :=
  ⟨by simp,
   c6_hybrid_guard.1 (fun _ => []) [sampleItem] [1] ["k"] ["g"] ""
     (by simp) (by simp)⟩

/-- C3. When the batch is aligned, the `i`-th output score is exactly
`0.5·sim + 0.3·keywordScore + 0.2·genreScore` where `sim` is the cosine
similarity of the mood embedding and the item's text embedding (`NaN`
propagating through `Option.map`), and the keyword/genre scores are
computed from the item's tags — a deterministic pure function
(`scoreFormula`) of those three values. -/
theorem c3_score_formula (eb : List String → List (List ℝ))
    (items : List CandidateItem) (mood : List ℝ) (rk rg : List String)
    (rt : String) (h : (eb (items.map itemText)).length = items.length)
    (i : ℕ) :
    ((hybridScore eb (some items) mood rk rg rt)[i]?).map (fun r => r.score)
      = (items[i]?).map (fun item =>
          (cosineSimilarity mood ((eb (items.map itemText)).getD i [])).map
            (fun s => scoreFormula s ((keywordOverlap rk item.tags : ℚ) : ℝ)
              ((genreOverlap rg item.tags : ℚ) : ℝ))) := by
  rw [hybridScore_getElem eb items mood rk rg rt h i]
  cases items[i]? <;> rfl

/-- Witness for C3: the score equation applied to a concrete
single-item batch. -/
theorem c3_score_witness :
    ((fun _ => [[(1 : ℝ)]]) ([sampleItem].map itemText)).length
        = [sampleItem].length
    ∧ ((hybridScore (fun _ => [[(1 : ℝ)]]) (some [sampleItem]) [1] [] [] "")[0]?).map
          (fun r => r.score)
        = ([sampleItem][0]?).map (fun item =>
            (cosineSimilarity [1] (((fun _ => [[(1 : ℝ)]])
                ([sampleItem].map itemText)).getD 0 [])).map
              (fun s => scoreFormula s ((keywordOverlap [] item.tags : ℚ) : ℝ)
                ((genreOverlap [] item.tags : ℚ) : ℝ))) :=
  ⟨by simp,
   c3_score_formula (fun _ => [[(1 : ℝ)]]) [sampleItem] [1] [] [] ""
     (by simp) 0⟩

/-- C10. When the batch is aligned, `hybridScore` returns exactly one
scored item per input item at the same index, preserving every candidate
field (`{...item}` spread) and adding only `score` and `reason`. -/
theorem c10_hybrid_frame (eb : List String → List (List ℝ))
    (items : List CandidateItem) (mood : List ℝ) (rk rg : List String)
    (rt : String) (h : (eb (items.map itemText)).length = items.length) :
    (hybridScore eb (some items) mood rk rg rt).length = items.length
    ∧ (∀ i : ℕ, ((hybridScore eb (some items) mood rk rg rt)[i]?).map
        (fun r => r.toCandidateItem) = items[i]?)
    ∧ (∀ i : ℕ, ((hybridScore eb (some items) mood rk rg rt)[i]?).map
        (fun r => r.reason) = (items[i]?).map (fun _ => reasonText rt)) := by
  refine ⟨?_, ?_, ?_⟩
  · cases items with
    | nil => simp [hybridScore]
    | cons a as =>
      simp only [hybridScore, Option.getD_some]
      rw [if_neg (by simp)]
      simp only [h, ne_eq, not_true_eq_false, if_false]
      rw [List.length_mapIdx]
  · intro i
    rw [hybridScore_getElem eb items mood rk rg rt h i]
    cases items[i]? <;> rfl
  · intro i
    rw [hybridScore_getElem eb items mood rk rg rt h i]
    cases items[i]? <;> rfl

/-- Witness for C10: the frame condition applied to a concrete
single-item batch. -/
theorem c10_hybrid_witness :
    ((fun _ => [[(2 : ℝ)]]) ([sampleItem].map itemText)).length
        = [sampleItem].length
    ∧ (hybridScore (fun _ => [[(2 : ℝ)]]) (some [sampleItem]) [1] [] [] "x").length
        = [sampleItem].length
    ∧ (∀ i : ℕ, ((hybridScore (fun _ => [[(2 : ℝ)]]) (some [sampleItem]) [1] [] [] "x")[i]?).map
        (fun r => r.toCandidateItem) = [sampleItem][i]?) :=
  ⟨by simp,
   (c10_hybrid_frame (fun _ => [[(2 : ℝ)]]) [sampleItem] [1] [] [] "x" (by simp)).1,
   (c10_hybrid_frame (fun _ => [[(2 : ℝ)]]) [sampleItem] [1] [] [] "x" (by simp)).2.1⟩

/-- Helper: a concrete rational-scored item for witnesses. -/
def qItem (t : String) (q : ℚ) : ScoredItem ℚ :=
  { title := t, ty := "movie", desc := none, tags := .arr [], id := none
    image := none, score := some q, reason := "" }

/-- Helper: the sort step of `finalizeResults` is sorted descending by
`score || 0`. -/
theorem sortByScoreDesc_sorted {α : Type} [LinearOrder α] [Zero α]
    (items : List (ScoredItem α)) :
    (sortByScoreDesc items).Pairwise (fun a b => scoreD b ≤ scoreD a) := by
  haveI : IsTotal (ScoredItem α) (fun a b => scoreD b ≤ scoreD a) :=
    ⟨fun a b => le_total (scoreD b) (scoreD a)⟩
  haveI : IsTrans (ScoredItem α) (fun a b => scoreD b ≤ scoreD a) :=
    ⟨fun a b c h1 h2 => le_trans h2 h1⟩
  exact List.sorted_insertionSort _ items

/-- Helper: the sort step permutes its input. -/
theorem sortByScoreDesc_perm {α : Type} [LinearOrder α] [Zero α]
    (items : List (ScoredItem α)) : (sortByScoreDesc items).Perm items :=
  List.perm_insertionSort _ items

/-- C1. `finalizeResults` sorts descending by score (missing score read
as `0`), keeps the top 12, shuffles within that band (any permutation
the random comparator sort may produce), and returns the first 6; the
empty list maps to the empty list (and the function is total, so it
never throws). -/
theorem c1_finalize_spec {α : Type} [LinearOrder α] [Zero α]
    (shuffle : List (ScoredItem α) → List (ScoredItem α))
    (hs : ∀ l, (shuffle l).Perm l) (items : List (ScoredItem α)) :
    ((sortByScoreDesc items).Pairwise (fun a b => scoreD b ≤ scoreD a)
      ∧ (sortByScoreDesc items).Perm items)
    ∧ (∃ band : List (ScoredItem α), band.Perm ((sortByScoreDesc items).take 12)
        ∧ finalizeResults shuffle items = band.take 6)
    ∧ finalizeResults shuffle ([] : List (ScoredItem α)) = [] := by
  refine ⟨⟨sortByScoreDesc_sorted items, sortByScoreDesc_perm items⟩,
    ⟨shuffle ((sortByScoreDesc items).take 12), hs _, rfl⟩, ?_⟩
  have h0 : shuffle [] = [] := (hs []).eq_nil
  simp [finalizeResults, sortByScoreDesc, List.insertionSort, h0]

/-- Witness for C1: the band clause and the empty clause at a concrete
two-item list and the identity permutation. -/
theorem c1_finalize_witness :
    (∃ band : List (ScoredItem ℚ), band.Perm ((sortByScoreDesc [qItem "a" 1, qItem "b" 2]).take 12)
      ∧ finalizeResults (fun l => l) [qItem "a" 1, qItem "b" 2] = band.take 6)
    ∧ finalizeResults (fun l => l) ([] : List (ScoredItem ℚ)) = [] :=
  ⟨(c1_finalize_spec (fun l => l) (fun l => List.Perm.refl l)
      [qItem "a" 1, qItem "b" 2]).2.1,
   (c1_finalize_spec (fun l => l) (fun l => List.Perm.refl l) []).2.2⟩

/-- C2, amended. `finalizeResults` returns `min 6 k` items for an input
of size `k` — exactly `k` only when `k ≤ 6`, and exactly `6` for every
`k ≥ 6` (the claim's "k items for all k ≤ 12" fails for `7 ≤ k ≤ 12`,
see the counterexample).  All returned items come from the input (no
duplicates when the input has none), every returned item lies in the
top-12 band of the descending sort, and that band dominates the rest of
the sorted list by score. -/
theorem c2_finalize_count {α : Type} [LinearOrder α] [Zero α]
    (shuffle : List (ScoredItem α) → List (ScoredItem α))
    (hs : ∀ l, (shuffle l).Perm l) (items : List (ScoredItem α)) :
    (finalizeResults shuffle items).length = min 6 items.length
    ∧ (∀ x ∈ finalizeResults shuffle items, x ∈ items)
    ∧ (items.Nodup → (finalizeResults shuffle items).Nodup)
    ∧ (∀ x ∈ finalizeResults shuffle items,
        x ∈ (sortByScoreDesc items).take 12)
    ∧ (∀ x ∈ (sortByScoreDesc items).take 12,
        ∀ y ∈ (sortByScoreDesc items).drop 12, scoreD y ≤ scoreD x) := by
  have hperm := sortByScoreDesc_perm items
  have hb : (shuffle ((sortByScoreDesc items).take 12)).Perm
      ((sortByScoreDesc items).take 12) := hs _
  refine ⟨?_, ?_, ?_, ?_, ?_⟩
  · rw [finalizeResults, List.length_take, hb.length_eq, List.length_take,
      hperm.length_eq]
    omega
  · intro x hx
    have h1 : x ∈ shuffle ((sortByScoreDesc items).take 12) :=
      (List.take_sublist 6 _).subset hx
    have h2 : x ∈ (sortByScoreDesc items).take 12 := hb.mem_iff.mp h1
    exact hperm.mem_iff.mp ((List.take_sublist 12 _).subset h2)
  · intro hnd
    have h1 : (sortByScoreDesc items).Nodup := hperm.nodup_iff.mpr hnd
    have h2 : ((sortByScoreDesc items).take 12).Nodup :=
      (List.take_sublist 12 _).nodup h1
    exact (List.take_sublist 6 _).nodup (hb.nodup_iff.mpr h2)
  · intro x hx
    exact hb.mem_iff.mp ((List.take_sublist 6 _).subset hx)
  · have hpw := sortByScoreDesc_sorted items
    rw [← List.take_append_drop 12 (sortByScoreDesc items)] at hpw
    exact (List.pairwise_append.mp hpw).2.2

/-- Counterexample to C2 as stated: a 7-item pool (`k = 7 ≤ 12`) with
pairwise distinct scores and the identity permutation as the shuffle
outcome yields 6 items, not `k = 7` — `slice(0, 6)` caps every output at
6. -/
theorem c2_counterexample :
    (finalizeResults (fun l => l)
        [qItem "a" 7, qItem "b" 6, qItem "c" 5, qItem "d" 4, qItem "e" 3,
         qItem "f" 2, qItem "g" 1]).length = 6
    ∧ ¬ (finalizeResults (fun l => l)
        [qItem "a" 7, qItem "b" 6, qItem "c" 5, qItem "d" 4, qItem "e" 3,
         qItem "f" 2, qItem "g" 1]).length = 7 := by
  constructor <;> decide

/-- Witness for C2 (amended): the count clause applied to the same
concrete 7-item pool. -/
theorem c2_finalize_witness :
    (finalizeResults (fun l => l)
        [qItem "a" 1, qItem "b" 2, qItem "c" 3, qItem "d" 4, qItem "e" 5,
         qItem "f" 6, qItem "g" 7]).length
      = min 6 [qItem "a" 1, qItem "b" 2, qItem "c" 3, qItem "d" 4,
          qItem "e" 5, qItem "f" 6, qItem "g" 7].length :=
  (c2_finalize_count (fun l => l) (fun l => List.Perm.refl l)
    [qItem "a" 1, qItem "b" 2, qItem "c" 3, qItem "d" 4, qItem "e" 5,
     qItem "f" 6, qItem "g" 7]).1

/-- Helper: a concrete environment for the handler witnesses: the LLM
returns unparsable content, the trending feed has one entry, and the
remaining providers give minimal answers. -/
noncomputable def sampleEnv : Env :=
  { refData := fun _ _ => ⟨"", "", [], []⟩
    openAIContent := some "not json"
    parse := fun _ => none
    trendingResults := some [⟨"Trender", some "a trending film", "42", some "/p.jpg"⟩]
    enrich := fun i => i
    embedText := fun _ => [1]
    embedBatch := fun _ => []
    spotify := fun _ => none
    shuffleMovies := fun l => l
    shuffleTv := fun l => l
    shuffleBooks := fun l => l
    movieSearch := none
    tvSearch := none
    bookSearch := none }

/-- C8. A request on the mood path (not a preflight, no `query`
parameter) with the `mood` parameter absent is answered `400` with body
`{error: "Missing mood input"}`, and the external-call trace is empty —
the pipeline is never entered. -/
theorem c8_missing_mood (env : Env) (req : Req)
    (h1 : req.method ≠ "OPTIONS") (h2 : strTruthy req.queryParam = false)
    (h3 : req.mood = none) :
    handler env req = (⟨400, .err "Missing mood input"⟩, []) := by
  have h3' : strTruthy req.mood = false := by rw [h3]; rfl
  simp [handler, h1, h2, h3']

/-- Witness for C8: a concrete GET request without `mood` against the
concrete environment. -/
theorem c8_missing_mood_witness :
    handler sampleEnv ⟨"GET", none, none, none, none, none⟩
      = (⟨400, .err "Missing mood input"⟩, []) :=
  c8_missing_mood sampleEnv ⟨"GET", none, none, none, none, none⟩
    (by decide) rfl rfl

/-- C7. `fetchOpenAIPool` returns `[]` whenever `JSON.parse` fails on
the (fence-stripped, trimmed) LLM content — it never raises; and
whenever the pool it produced is empty, the handler's mood path scores
the fallback pool built from the TMDB trending feed (`trendingPool`)
instead, recording the extra `tmdb-trending` call before the scoring
stages. -/
theorem c7_pool_fallback :
    (∀ (parse : String → Option (List CandidateItem)) (content : Option String),
      parse (stripFence ((jsOr content "[]").trim)) = none →
      fetchOpenAIPool parse content = [])
    ∧ (∀ (env : Env) (req : Req), req.method ≠ "OPTIONS" →
        strTruthy req.queryParam = false → strTruthy req.mood = true →
        fetchOpenAIPool env.parse env.openAIContent = [] →
        handler env req =
          ((moodPath env (req.mood.getD "")
              (match req.criteria with | none => "popular" | some c => c)
              (refMetaOf env req) (trendingPool env)).1,
           refCallsOf req ++ ["fetchOpenAIPool", "tmdb-trending"]
             ++ (moodPath env (req.mood.getD "")
                 (match req.criteria with | none => "popular" | some c => c)
                 (refMetaOf env req) (trendingPool env)).2)) := by
  constructor
  · intro parse content h
    unfold fetchOpenAIPool
    rw [h]
    rfl
  · intro env req h1 h2 h3 h4
    simp [handler, h1, h2, h3, h4]

/-- Witness for C7: the parse-failure clause at a concrete unparsable
content, and the fallback clause at the concrete environment and a
concrete mood request. -/
theorem c7_pool_fallback_witness :
    fetchOpenAIPool (fun _ => none) (some "definitely not JSON") = []
    ∧ handler sampleEnv ⟨"GET", none, some "happy", none, none, none⟩ =
        ((moodPath sampleEnv "happy" "popular"
            (refMetaOf sampleEnv ⟨"GET", none, some "happy", none, none, none⟩)
            (trendingPool sampleEnv)).1,
         refCallsOf ⟨"GET", none, some "happy", none, none, none⟩
           ++ ["fetchOpenAIPool", "tmdb-trending"]
           ++ (moodPath sampleEnv "happy" "popular"
               (refMetaOf sampleEnv ⟨"GET", none, some "happy", none, none, none⟩)
               (trendingPool sampleEnv)).2) :=
  ⟨c7_pool_fallback.1 (fun _ => none) (some "definitely not JSON") rfl,
   c7_pool_fallback.2 sampleEnv ⟨"GET", none, some "happy", none, none, none⟩
     (by decide) rfl rfl rfl⟩

end MoodMatch
